import Mathlib

/-!
Verification of the Worboo relayer specification.

The relayer's TypeScript sources (logger, processed-event store, metrics,
health server, event processor) are not part of the available excerpt; only
the logger test suite, the deployment guide and auxiliary assets are.  The
definitions below are therefore shallow embeddings modelled from the
specification, constrained by the observable behaviour fixed in
packages/relayer/tests/logger.test.ts (record shape, the literal warning
message on shipping failure, sink routing, rotation).  Real time, actual
file descriptors and network transport are abstracted: timestamps and
shipping outcomes are explicit parameters, disk appends take an explicit
success flag, and effects are returned as values.
-/

namespace Relayer

/-! ## Structured logger -/

/-- Log severity levels offered by the logger contract. -/
inductive Level where
  | info
  | warn
  | error
deriving DecidableEq

/-- Modelled from the spec: rendering of a level into the JSON `level` field. -/
def levelString : Level → String
  | Level.info => "info"
  | Level.warn => "warn"
  | Level.error => "error"

/-- Flat JSON values, enough for the structured context/meta objects the
relayer logs (the test suite only uses flat objects). -/
inductive JVal where
  | jstr (s : String)
  | jnum (n : Int)
  | jbool (b : Bool)
deriving DecidableEq

/-- A flat JSON object as an association list. -/
abbrev JObj := List (String × JVal)

/-- Quote a string as a JSON string literal (escaping of embedded quotes is
not modelled; no modelled input contains one). -/
def jquote (s : String) : String := "\"" ++ s ++ "\""

/-- Modelled from the spec: JSON rendering of a flat value. -/
def renderJVal : JVal → String
  | JVal.jstr s => jquote s
  | JVal.jnum n => toString n
  | JVal.jbool b => cond b "true" "false"

/-- Modelled from the spec: JSON rendering of a flat object. -/
def renderObj (o : JObj) : String :=
  "\x7b" ++ String.intercalate "," (o.map fun p => jquote p.1 ++ ":" ++ renderJVal p.2) ++ "\x7d"

/-- One structured log record.  The timestamp field is named `ts`, the name
the test suite observes on the parsed JSON record. -/
structure LogRecord where
  ts : String
  level : Level
  message : String
  context : JObj
  meta : JObj
deriving DecidableEq

/-- The key/rendered-value pairs of the serialized record, in emission
order.  The JSON keys of an emitted record are exactly the first components. -/
def recordPairs (r : LogRecord) : List (String × String) :=
  [("ts", jquote r.ts),
   ("level", jquote (levelString r.level)),
   ("message", jquote r.message),
   ("context", renderObj r.context),
   ("meta", renderObj r.meta)]

/-- The JSON keys of an emitted record. -/
def recordKeys (r : LogRecord) : List String := (recordPairs r).map Prod.fst

/-- Modelled from the spec: serialization of one record to one JSON line. -/
def renderRecord (r : LogRecord) : String :=
  "\x7b" ++ String.intercalate "," ((recordPairs r).map fun p => jquote p.1 ++ ":" ++ p.2) ++ "\x7d"

/-- Logger construction options relevant to routing and shipping. -/
structure LoggerCfg where
  context : JObj
  httpEndpoint : Option String
deriving DecidableEq

/-- The fixed local warning message emitted when shipping a record fails,
as pinned down by the logger test suite. -/
def shipFailMessage : String := "[relayer] log shipping failed"

/-- The observable effects of a single logging call: the record built for
the call, the records delivered to each sink, and the records handed to the
HTTP shipping transport. -/
structure LogOutput where
  record : LogRecord
  infoRecords : List LogRecord
  errorRecords : List LogRecord
  shipped : List LogRecord
deriving DecidableEq

/-- Modelled from the spec: one `info|warn|error` call.  `ts` is the clock
reading, `shipOk` the outcome of the fire-and-forget shipment when an
endpoint is configured.  Routing sends `info` to the info sink and
`warn`/`error` to the error sink; a failed shipment is reported by exactly
one local `warn` record that is itself never shipped and never retried.
The call is a total function: failures surface only as effects. -/
def logCall (cfg : LoggerCfg) (lvl : Level) (msg : String) (meta : JObj)
    (ts : String) (shipOk : Bool) : LogOutput :=
  let r : LogRecord := ⟨ts, lvl, msg, cfg.context, meta⟩
  let doShip : Bool := cfg.httpEndpoint.isSome
  let failWarns : List LogRecord :=
    if doShip && !shipOk then [⟨ts, Level.warn, shipFailMessage, cfg.context, []⟩] else []
  { record := r
    infoRecords := match lvl with | Level.info => [r] | _ => []
    errorRecords := (match lvl with | Level.info => [] | _ => [r]) ++ failWarns
    shipped := if doShip then [r] else [] }

/-! ## Rotating file sink -/

/-- State of the size-rotated file sink: the primary file's lines, the
numbered backups (index i holds backup .(i+1)), the tracked cumulative byte
size of the primary file, and the configured bounds. -/
structure FileSink where
  primary : List String
  backups : List (List String)
  size : Nat
  maxBytes : Nat
  backupsCfg : Nat
deriving DecidableEq

/-- A freshly opened file sink. -/
def emptyFileSink (maxBytes backupsCfg : Nat) : FileSink :=
  ⟨[], [], 0, maxBytes, backupsCfg⟩

/-- Modelled from the spec: append one serialized record plus newline; when
the cumulative size then exceeds `maxBytes`, rotate: the primary file
becomes backup .1, existing backups shift up one index (those beyond
`backupsCfg` are discarded) and a fresh empty primary file is created. -/
def writeLine (fs : FileSink) (line : String) : FileSink :=
  let p := fs.primary ++ [line]
  let sz := fs.size + line.length + 1
  if fs.maxBytes < sz then
    ⟨[], (p :: fs.backups).take fs.backupsCfg, 0, fs.maxBytes, fs.backupsCfg⟩
  else
    ⟨p, fs.backups, sz, fs.maxBytes, fs.backupsCfg⟩

/-- The fixed timestamp used by the concrete rotation scenario. -/
def demoTs : String := "2024-01-01T00:00:00.000Z"

/-- The rotation scenario of the test suite: 20 info records written
through a file sink configured with `maxBytes = 256` and one backup. -/
def rotationRun : FileSink :=
  (List.range 20).foldl
    (fun fs i =>
      writeLine fs (renderRecord ⟨demoTs, Level.info, "message", [], [("index", JVal.jnum i)]⟩))
    (emptyFileSink 256 1)

/-! ## Processed-event store -/

/-- Composite identifier of one on-chain occurrence: source transaction
identifier plus log position within that transaction. -/
structure EventKey where
  tx : String
  logIndex : Nat
deriving DecidableEq

/-- A raw game-completion event delivered by the chain collaborator. -/
structure ChainEvent where
  tx : String
  logIndex : Nat
  player : String
  amount : Nat
  block : Nat
deriving DecidableEq

/-- The dedup key of an event. -/
def eventKey (e : ChainEvent) : EventKey := ⟨e.tx, e.logIndex⟩

/-- One processed-event record: key, originating block number, processing
timestamp, resulting reward-transaction reference, reward amount. -/
structure PRecord where
  key : EventKey
  block : Nat
  timestampMs : Nat
  rewardTx : Nat
  amount : Nat
deriving DecidableEq

/-- Persistence-failure error surfaced (as a value, never an exception) to
the event processor. -/
inductive StoreIOError where
  | appendFailed
deriving DecidableEq

/-- The message logged when an on-disk append fails. -/
def storeAppendFailedMsg : String := "store append failed"

/-- Modelled from the spec: insert a record at the newest end of the
in-memory index, then drop the oldest entries (by insertion order) so that
at most `max` entries remain. -/
def insertEvict (max : Nat) (xs : List PRecord) (r : PRecord) : List PRecord :=
  (xs ++ [r]).drop ((xs ++ [r]).length - max)

/-- The processed-event store: in-memory index in insertion order, the
on-disk log, the configured capacity, and the store's failure log. -/
structure Store where
  entries : List PRecord
  log : List PRecord
  maxEntries : Nat
  ioLog : List String
deriving DecidableEq

/-- A freshly created store over an empty storage location. -/
def emptyStore (max : Nat) : Store := ⟨[], [], max, []⟩

/-- Modelled from the spec: O(1)-intent membership test against the
in-memory index only; never touches disk. -/
def isProcessed (s : Store) (k : EventKey) : Bool :=
  s.entries.any fun r => decide (r.key = k)

/-- Modelled from the spec: record a processed event.  `diskOk` is the
outcome of the on-disk append.  The in-memory index is updated (with
oldest-first eviction beyond capacity) in either case; on success the
on-disk log is brought in line with the retained entries (eager per-insert
compaction, which also re-persists anything a previously failed append
left off disk); on failure the disk is untouched, the failure is logged
and a `StoreIOError` is surfaced as a value. -/
def markProcessed (s : Store) (r : PRecord) (diskOk : Bool) :
    Store × Option StoreIOError :=
  let es := insertEvict s.maxEntries s.entries r
  if diskOk then
    ({ s with entries := es, log := es }, none)
  else
    ({ s with entries := es, ioLog := s.ioLog ++ [storeAppendFailedMsg] },
      some StoreIOError.appendFailed)

/-- A successful `markProcessed`, keeping only the store. -/
def markProcessedOk (s : Store) (r : PRecord) : Store := (markProcessed s r true).1

/-- A sequence of successful `markProcessed` calls, in submission order. -/
def markAll (s : Store) (L : List PRecord) : Store := L.foldl markProcessedOk s

/-- Modelled from the spec: startup recovery; the in-memory index is
reconstructed by replaying the on-disk log sequentially. -/
def loadStore (log : List PRecord) (max : Nat) : Store :=
  ⟨log.drop (log.length - max), log, max, []⟩

/-! ## Metrics and the event processor -/

/-- Relay metrics counters, mutated only by the event processor. -/
structure Metrics where
  totalProcessed : Nat
  totalErrors : Nat
  queueDepth : Nat
  lastProcessedBlock : Nat
  lastError : Option String
deriving DecidableEq

/-- Outcome of one invocation of the reward-minting collaborator. -/
inductive MintOutcome where
  | success (txRef : Nat)
  | transientFail
deriving DecidableEq

/-- Modelled from the spec: retry the minting invocation until it succeeds
or the retry budget is exhausted; backoff delays are real time and not
modelled.  Returns the reward-transaction reference of the first success
within the budget, if any. -/
def attemptMint (outcomes : List MintOutcome) (budget : Nat) : Option Nat :=
  (outcomes.take budget).findSome? fun o =>
    match o with
    | MintOutcome.success t => some t
    | MintOutcome.transientFail => none

/-- The orchestrator's state: store, metrics, the mint invocations that
succeeded (ghost trace of on-chain side effects) and the log records it
drove into the logger. -/
structure RelayState where
  store : Store
  metrics : Metrics
  minted : List EventKey
  logs : List (Level × String)
deriving DecidableEq

/-- The record written for a processed event. -/
def mkRecord (e : ChainEvent) (txRef : Nat) : PRecord :=
  ⟨eventKey e, e.block, 0, txRef, e.amount⟩

/-- Modelled from the spec: handling of one delivered event.  A key already
recorded is skipped untouched.  Otherwise minting is attempted within the
retry budget; on success the record is stored, `totalProcessed` is
incremented and the checkpoint advanced; on exhausted retries the event is
logged as failed, `totalErrors` is incremented and the key is marked
processed anyway (skip-and-log), so the loop advances past the poison
event. -/
def processEvent (budget : Nat) (s : RelayState) (e : ChainEvent)
    (outcomes : List MintOutcome) : RelayState :=
  if isProcessed s.store (eventKey e) then s
  else
    match attemptMint outcomes budget with
    | some txRef =>
      { store := (markProcessed s.store (mkRecord e txRef) true).1
        metrics := { s.metrics with
          totalProcessed := s.metrics.totalProcessed + 1
          lastProcessedBlock := Nat.max s.metrics.lastProcessedBlock e.block
          lastError := none }
        minted := s.minted ++ [eventKey e]
        logs := s.logs ++ [(Level.info, "event processed")] }
    | none =>
      { store := (markProcessed s.store (mkRecord e 0) true).1
        metrics := { s.metrics with
          totalErrors := s.metrics.totalErrors + 1
          lastError := some "mint retries exhausted" }
        minted := s.minted
        logs := s.logs ++ [(Level.error, "event processing failed")] }

/-! ## Health snapshot and health server -/

/-- The derived status of the relay. -/
inductive HStatus where
  | idle
  | processing
  | error
deriving DecidableEq

/-- Rendering of the status into the snapshot's `status` field. -/
def hstatusString : HStatus → String
  | HStatus.idle => "idle"
  | HStatus.processing => "processing"
  | HStatus.error => "error"

/-- The ephemeral health snapshot recomputed on every health request. -/
structure Snapshot where
  status : HStatus
  queueDepth : Nat
  totalProcessed : Nat
  totalErrors : Nat
  lastProcessedBlock : Nat
  lastError : Option String
  uptimeSeconds : Nat
deriving DecidableEq

/-- Modelled from the spec: the health snapshot collector, a pure function
of the metrics snapshot and the process uptime. -/
def collectSnapshot (m : Metrics) (uptime : Nat) : Snapshot :=
  { status :=
      if m.lastError.isSome then HStatus.error
      else if 0 < m.queueDepth then HStatus.processing
      else HStatus.idle
    queueDepth := m.queueDepth
    totalProcessed := m.totalProcessed
    totalErrors := m.totalErrors
    lastProcessedBlock := m.lastProcessedBlock
    lastError := m.lastError
    uptimeSeconds := uptime }

/-- A minimal HTTP response. -/
structure HttpResponse where
  code : Nat
  body : String
deriving DecidableEq

/-- JSON rendering of a snapshot. -/
def renderSnapshot (s : Snapshot) : String :=
  "\x7b\"status\":" ++ jquote (hstatusString s.status) ++
  ",\"queueDepth\":" ++ toString s.queueDepth ++
  ",\"totalProcessed\":" ++ toString s.totalProcessed ++
  ",\"totalErrors\":" ++ toString s.totalErrors ++
  ",\"lastProcessedBlock\":" ++ toString s.lastProcessedBlock ++
  ",\"uptimeSeconds\":" ++ toString s.uptimeSeconds ++ "\x7d"

/-- The 500 body returned when the snapshot collector fails. -/
def healthUnavailableBody : String := "\x7b\"error\":\"health_unavailable\"\x7d"

/-- The 404 body for unmatched routes. -/
def notFoundBody : String := "\x7b\"error\":\"not_found\"\x7d"

/-- Modelled from the spec: the health server's request handler.  The
collector outcome is passed explicitly; any collector failure is caught
and turned into a 500 response, and the handler is a total, stateless
function, so serving one request never affects the next (the server
remains live). -/
def handleRequest (method path : String) (collected : Except Unit Snapshot) :
    HttpResponse :=
  if method = "GET" ∧ path = "/healthz" then
    match collected with
    | Except.ok s => ⟨200, renderSnapshot s⟩
    | Except.error _ => ⟨500, healthUnavailableBody⟩
  else if method = "OPTIONS" ∧ path = "/healthz" then ⟨204, ""⟩
  else ⟨404, notFoundBody⟩

/-! ## Store lemmas -/

theorem insertEvict_of_le (max : Nat) (xs : List PRecord) (r : PRecord)
    (h : xs.length + 1 ≤ max) : insertEvict max xs r = xs ++ [r] := by
  unfold insertEvict
  have h0 : (xs ++ [r]).length - max = 0 := by simp; omega
  rw [h0, List.drop_zero]

theorem mem_insertEvict_self (max : Nat) (h : 0 < max) (xs : List PRecord)
    (r : PRecord) : r ∈ insertEvict max xs r := by
  unfold insertEvict
  have hk : (xs ++ [r]).length - max ≤ xs.length := by simp; omega
  rw [List.drop_append_of_le_length hk]
  simp

theorem filter_insertEvict (max : Nat) (h0 : 0 < max) (xs : List PRecord)
    (r : PRecord) (p : PRecord → Bool) (hp : p r = true)
    (hxs : ∀ x ∈ xs, p x = false) : (insertEvict max xs r).filter p = [r] := by
  unfold insertEvict
  have hk : (xs ++ [r]).length - max ≤ xs.length := by simp; omega
  rw [List.drop_append_of_le_length hk, List.filter_append]
  have h1 : (xs.drop ((xs ++ [r]).length - max)).filter p = [] :=
    List.filter_eq_nil_iff.mpr fun a ha => by
      simpa using hxs a (List.mem_of_mem_drop ha)
  rw [h1]
  simp [hp]

theorem insertEvict_drop (max : Nat) (pre : List PRecord) (r : PRecord) :
    insertEvict max (pre.drop (pre.length - max)) r
      = (pre ++ [r]).drop ((pre ++ [r]).length - max) := by
  have hk : pre.length - max ≤ pre.length := Nat.sub_le _ _
  have h1 : (pre ++ [r]).drop (pre.length - max)
      = pre.drop (pre.length - max) ++ [r] := List.drop_append_of_le_length hk
  have h2 : (pre ++ [r]).length - max
      = (pre.length - max) + ((pre.drop (pre.length - max) ++ [r]).length - max) := by
    simp [List.length_append, List.length_drop]
    omega
  calc insertEvict max (pre.drop (pre.length - max)) r
      = (pre.drop (pre.length - max) ++ [r]).drop
          ((pre.drop (pre.length - max) ++ [r]).length - max) := rfl
    _ = ((pre ++ [r]).drop (pre.length - max)).drop
          ((pre.drop (pre.length - max) ++ [r]).length - max) := by rw [h1]
    _ = (pre ++ [r]).drop ((pre ++ [r]).length - max) := by
          rw [List.drop_drop, ← h2]

theorem foldl_insertEvict_drop (max : Nat) (L : List PRecord) :
    ∀ pre : List PRecord,
      L.foldl (insertEvict max) (pre.drop (pre.length - max))
        = (pre ++ L).drop ((pre ++ L).length - max) := by
  induction L with
  | nil => intro pre; simp
  | cons r L ih =>
    intro pre
    rw [List.foldl_cons, insertEvict_drop]
    have h := ih (pre ++ [r])
    rw [h]
    simp

theorem markProcessedOk_entries (s : Store) (r : PRecord) :
    (markProcessedOk s r).entries = insertEvict s.maxEntries s.entries r := rfl

theorem markProcessedOk_log (s : Store) (r : PRecord) :
    (markProcessedOk s r).log = insertEvict s.maxEntries s.entries r := rfl

theorem markProcessedOk_max (s : Store) (r : PRecord) :
    (markProcessedOk s r).maxEntries = s.maxEntries := rfl

theorem markAll_maxEntries (L : List PRecord) :
    ∀ s : Store, (markAll s L).maxEntries = s.maxEntries := by
  induction L with
  | nil => intro s; rfl
  | cons r L ih =>
    intro s
    have h := ih (markProcessedOk s r)
    simpa [markAll, List.foldl_cons] using h

theorem markAll_entries (L : List PRecord) :
    ∀ s : Store, (markAll s L).entries
      = L.foldl (insertEvict s.maxEntries) s.entries := by
  induction L with
  | nil => intro s; rfl
  | cons r L ih =>
    intro s
    have h := ih (markProcessedOk s r)
    simpa [markAll, List.foldl_cons, markProcessedOk_entries, markProcessedOk_max]
      using h

theorem markAll_log_consistent (L : List PRecord) :
    ∀ s : Store, s.log = s.entries → (markAll s L).log = (markAll s L).entries := by
  induction L with
  | nil => intro s h; exact h
  | cons r L ih =>
    intro s _
    have h := ih (markProcessedOk s r) rfl
    simpa [markAll, List.foldl_cons] using h

theorem markAll_entries_drop (max : Nat) (L : List PRecord) :
    (markAll (emptyStore max) L).entries = L.drop (L.length - max) := by
  rw [markAll_entries]
  have h := foldl_insertEvict_drop max L []
  simpa using h

theorem markAll_length_le (max : Nat) (L : List PRecord) :
    (markAll (emptyStore max) L).entries.length ≤ max := by
  rw [markAll_entries_drop]
  simp [List.length_drop]
  omega

theorem isProcessed_eq_of_entries (s t : Store) (h : s.entries = t.entries)
    (k : EventKey) : isProcessed s k = isProcessed t k := by
  simp [isProcessed, h]

/-! ## Claim theorems: logger and health server -/

/-- Claim C7: `warn` and `error` calls write their record to the error
sink and never to the info sink, `info` calls write their record to the
info sink, and the emitted record's level field equals the method used. -/
theorem c7_sink_routing (cfg : LoggerCfg) (msg : String) (meta : JObj)
    (ts : String) (shipOk : Bool) :
    ((logCall cfg Level.info msg meta ts shipOk).infoRecords
        = [(logCall cfg Level.info msg meta ts shipOk).record]
      ∧ (logCall cfg Level.info msg meta ts shipOk).record.level = Level.info)
    ∧ ((logCall cfg Level.warn msg meta ts shipOk).infoRecords = []
      ∧ (logCall cfg Level.warn msg meta ts shipOk).errorRecords.head?
          = some (logCall cfg Level.warn msg meta ts shipOk).record
      ∧ (logCall cfg Level.warn msg meta ts shipOk).record.level = Level.warn)
    ∧ ((logCall cfg Level.error msg meta ts shipOk).infoRecords = []
      ∧ (logCall cfg Level.error msg meta ts shipOk).errorRecords.head?
          = some (logCall cfg Level.error msg meta ts shipOk).record
      ∧ (logCall cfg Level.error msg meta ts shipOk).record.level = Level.error) := by
  simp [logCall]

/-- Claim C5 (amended): when an endpoint is configured and shipping fails,
the call emits exactly one local warn record, whose message is the literal
"[relayer] log shipping failed" (not "log shipping failed" as the claim
stated), only the original record is ever handed to the transport (the
warning is never shipped, the failure never retried), and the call returns
normally. -/
theorem c5_ship_fail_isolation (ctx : JObj) (url msg : String) (meta : JObj)
    (ts : String) :
    ((logCall ⟨ctx, some url⟩ Level.info msg meta ts false).errorRecords.filter
        (fun r => decide (r.message = shipFailMessage ∧ r.level = Level.warn))).length = 1
    ∧ (logCall ⟨ctx, some url⟩ Level.info msg meta ts false).shipped
        = [(logCall ⟨ctx, some url⟩ Level.info msg meta ts false).record] := by
  exact ⟨rfl, rfl⟩

/-- Claim C5 counterexample: on a concrete failed shipment, no local record
carries the message "log shipping failed"; the single warning emitted
carries the message "[relayer] log shipping failed" instead. -/
theorem c5_counterexample :
    ((logCall ⟨[], some "https://example.com/logs"⟩ Level.info "message" [] "T"
        false).errorRecords.filter
        (fun r => decide (r.message = "log shipping failed"))).length = 0
    ∧ ((logCall ⟨[], some "https://example.com/logs"⟩ Level.info "message" [] "T"
        false).errorRecords.filter
        (fun r => decide (r.message = "[relayer] log shipping failed"))).length = 1 := by
  decide

/-- Claim C8 (amended): with shipping nominal, every `info|warn|error` call
emits exactly one JSON record, whose keys are `ts`, `level`, `message`,
`context`, `meta` (the timestamp field is named `ts`, not `timestamp` as
the claim stated), with `context` equal to the constructed context and
`meta` equal to the call's structured argument. -/
theorem c8_record_shape (ctx meta : JObj) (lvl : Level) (msg ts : String) :
    (logCall ⟨ctx, none⟩ lvl msg meta ts true).infoRecords
        ++ (logCall ⟨ctx, none⟩ lvl msg meta ts true).errorRecords
      = [(logCall ⟨ctx, none⟩ lvl msg meta ts true).record]
    ∧ (logCall ⟨ctx, none⟩ lvl msg meta ts true).record.context = ctx
    ∧ (logCall ⟨ctx, none⟩ lvl msg meta ts true).record.meta = meta
    ∧ recordKeys (logCall ⟨ctx, none⟩ lvl msg meta ts true).record
      = ["ts", "level", "message", "context", "meta"] := by
  cases lvl <;> simp [logCall, recordKeys, recordPairs]

/-- Claim C8 counterexample: the concrete record of the test suite's first
scenario has no field named `timestamp` (its timestamp field is `ts`), and
a call whose shipment fails puts two records into the sinks, not one. -/
theorem c8_counterexample :
    ¬ ("timestamp" ∈ recordKeys (logCall
        ⟨[("component", JVal.jstr "relayer")], some "u"⟩ Level.info "boot"
        [("retries", JVal.jnum 3)] "T" false).record)
    ∧ ((logCall ⟨[("component", JVal.jstr "relayer")], some "u"⟩ Level.info "boot"
        [("retries", JVal.jnum 3)] "T" false).infoRecords
      ++ (logCall ⟨[("component", JVal.jstr "relayer")], some "u"⟩ Level.info "boot"
        [("retries", JVal.jnum 3)] "T" false).errorRecords).length = 2 := by
  decide

set_option maxRecDepth 100000 in
/-- Claim C6: writing the 20 info records of the rotation scenario
(`logMaxBytes = 256`, `logBackups = 1`) leaves a non-empty primary file and
a non-empty `.1` backup; and in general, whenever the cumulative size after
a write exceeds `maxBytes`, the primary file becomes backup `.1`, existing
backups shift up one index (truncated to the configured count) and a fresh
empty primary is created. -/
theorem c6_rotation (fs : FileSink) (line : String)
    (h : fs.maxBytes < fs.size + line.length + 1) :
    rotationRun.primary ≠ []
    ∧ rotationRun.backups.getD 0 [] ≠ []
    ∧ (writeLine fs line).primary = []
    ∧ (writeLine fs line).backups
        = ((fs.primary ++ [line]) :: fs.backups).take fs.backupsCfg
    ∧ (writeLine fs line).size = 0 := by
  refine ⟨by decide, by decide, ?_, ?_, ?_⟩ <;> simp [writeLine, h]

set_option maxRecDepth 100000 in
/-- Witness for C6 at a concrete sink and line. -/
theorem c6_rotation_witness :
    (emptyFileSink 2 1).maxBytes < (emptyFileSink 2 1).size + "abc".length + 1
    ∧ (rotationRun.primary ≠ []
      ∧ rotationRun.backups.getD 0 [] ≠ []
      ∧ (writeLine (emptyFileSink 2 1) "abc").primary = []
      ∧ (writeLine (emptyFileSink 2 1) "abc").backups
          = (((emptyFileSink 2 1).primary ++ ["abc"]) :: (emptyFileSink 2 1).backups).take
              (emptyFileSink 2 1).backupsCfg
      ∧ (writeLine (emptyFileSink 2 1) "abc").size = 0) :=
  ⟨by decide, c6_rotation (emptyFileSink 2 1) "abc" (by decide)⟩

/-- Claim C9: `GET /healthz` over a successfully collected snapshot returns
200 with a `status` field among idle, processing, error; a collector
failure yields 500 with the exact body `\x7b"error":"health_unavailable"\x7d`;
and the handler, being a total stateless function, serves the next nominal
request with 200 again (the server remains live). -/
theorem c9_health_endpoint (m m2 : Metrics) (u u2 : Nat) :
    (handleRequest "GET" "/healthz" (Except.ok (collectSnapshot m u))).code = 200
    ∧ (hstatusString (collectSnapshot m u).status = "idle"
        ∨ hstatusString (collectSnapshot m u).status = "processing"
        ∨ hstatusString (collectSnapshot m u).status = "error")
    ∧ handleRequest "GET" "/healthz" (Except.error ()) = ⟨500, healthUnavailableBody⟩
    ∧ (handleRequest "GET" "/healthz" (Except.ok (collectSnapshot m2 u2))).code = 200 := by
  refine ⟨rfl, ?_, rfl, rfl⟩
  cases hst : (collectSnapshot m u).status <;> simp [hstatusString]

theorem isProcessed_markProcessed_self (s : Store) (r : PRecord) (b : Bool)
    (h : 0 < s.maxEntries) : isProcessed (markProcessed s r b).1 r.key = true := by
  have hmem := mem_insertEvict_self s.maxEntries h s.entries r
  cases b <;> simp [markProcessed, isProcessed, List.any_eq_true] <;>
    exact ⟨r, hmem, rfl⟩

theorem markProcessed_true_fst (s : Store) (r : PRecord) :
    (markProcessed s r true).1
      = { s with entries := insertEvict s.maxEntries s.entries r,
                 log := insertEvict s.maxEntries s.entries r } := rfl

theorem markProcessed_false_fst (s : Store) (r : PRecord) :
    (markProcessed s r false).1
      = { s with entries := insertEvict s.maxEntries s.entries r,
                 ioLog := s.ioLog ++ [storeAppendFailedMsg] } := rfl

theorem processEvent_skip (budget : Nat) (s : RelayState) (e : ChainEvent)
    (o : List MintOutcome) (h : isProcessed s.store (eventKey e) = true) :
    processEvent budget s e o = s := by
  simp [processEvent, h]

/-! ## Claim theorems: store and event processor -/

/-- Claim C2 counterexample: with capacity 1, keys "a" then "b" are both
marked processed; after reloading from the persisted log, `isProcessed` on
key "a" — a key previously marked — is false (it was evicted), refuting
the claim as stated. -/
theorem c2_counterexample :
    ((⟨"a", 0⟩ : EventKey) ∈
        ([⟨⟨"a", 0⟩, 1, 0, 1, 10⟩, ⟨⟨"b", 0⟩, 2, 0, 2, 10⟩] : List PRecord).map PRecord.key)
    ∧ isProcessed
        (loadStore (markAll (emptyStore 1)
          [⟨⟨"a", 0⟩, 1, 0, 1, 10⟩, ⟨⟨"b", 0⟩, 2, 0, 2, 10⟩]).log 1)
        ⟨"a", 0⟩ = false := by
  decide

/-- Claim C2 (amended): after any sequence of successful `markProcessed`
calls — eviction included — reloading from the persisted log is an
observational round-trip: `isProcessed` agrees on every key with the
pre-crash store (so a key evicted before the crash reads false after it,
exactly as it did before); a key never marked reads false; and — provided
no more keys were marked than `cacheMaxEntries`, so no eviction occurred —
every marked key reads true after the reload. -/
theorem c2_crash_recovery (max : Nat) (L : List PRecord) (k knm km : EventKey)
    (hnm : knm ∉ L.map PRecord.key)
    (hm : km ∈ L.map PRecord.key) :
    isProcessed (loadStore (markAll (emptyStore max) L).log max) k
      = isProcessed (markAll (emptyStore max) L) k
    ∧ isProcessed (markAll (emptyStore max) L) knm = false
    ∧ (L.length ≤ max →
        isProcessed (loadStore (markAll (emptyStore max) L).log max) km = true) := by
  have hle : (markAll (emptyStore max) L).entries.length ≤ max :=
    markAll_length_le max L
  have hlog : (markAll (emptyStore max) L).log = (markAll (emptyStore max) L).entries :=
    markAll_log_consistent L (emptyStore max) rfl
  have hdrop : (markAll (emptyStore max) L).entries = L.drop (L.length - max) :=
    markAll_entries_drop max L
  have hload : (loadStore (markAll (emptyStore max) L).log max).entries
      = (markAll (emptyStore max) L).entries := by
    simp only [loadStore, hlog]
    rw [Nat.sub_eq_zero_of_le hle, List.drop_zero]
  refine ⟨isProcessed_eq_of_entries _ _ hload k, ?_, ?_⟩
  · rw [isProcessed, List.any_eq_false]
    intro x hx
    have hxL : x ∈ L := List.mem_of_mem_drop (hdrop ▸ hx)
    simp only [decide_eq_true_eq]
    intro hxe
    exact hnm (List.mem_map.mpr ⟨x, hxL, hxe⟩)
  · intro hlen
    rw [isProcessed_eq_of_entries _ _ hload km, isProcessed, List.any_eq_true]
    obtain ⟨x, hxL, hxk⟩ := List.mem_map.mp hm
    refine ⟨x, ?_, by simp [hxk]⟩
    rw [hdrop, Nat.sub_eq_zero_of_le hlen, List.drop_zero]
    exact hxL

/-- Witness for C2: the round-trip at the eviction configuration itself
(capacity 1, keys "a" then "b", read at the evicted key "a"), the
never-marked clause there, and the marked-key clause at a no-eviction
instance (capacity 2, one record). -/
theorem c2_crash_recovery_witness :
    ((⟨"c", 0⟩ : EventKey) ∉
        ([⟨⟨"a", 0⟩, 1, 0, 1, 10⟩, ⟨⟨"b", 0⟩, 2, 0, 2, 10⟩] : List PRecord).map PRecord.key)
    ∧ (⟨"b", 0⟩ : EventKey) ∈
        ([⟨⟨"a", 0⟩, 1, 0, 1, 10⟩, ⟨⟨"b", 0⟩, 2, 0, 2, 10⟩] : List PRecord).map PRecord.key
    ∧ isProcessed
        (loadStore (markAll (emptyStore 1)
          [⟨⟨"a", 0⟩, 1, 0, 1, 10⟩, ⟨⟨"b", 0⟩, 2, 0, 2, 10⟩]).log 1) ⟨"a", 0⟩
      = isProcessed (markAll (emptyStore 1)
          [⟨⟨"a", 0⟩, 1, 0, 1, 10⟩, ⟨⟨"b", 0⟩, 2, 0, 2, 10⟩]) ⟨"a", 0⟩
    ∧ isProcessed (markAll (emptyStore 1)
        [⟨⟨"a", 0⟩, 1, 0, 1, 10⟩, ⟨⟨"b", 0⟩, 2, 0, 2, 10⟩]) ⟨"c", 0⟩ = false
    ∧ ((⟨"b", 0⟩ : EventKey) ∉ ([⟨⟨"a", 0⟩, 1, 0, 1, 10⟩] : List PRecord).map PRecord.key)
    ∧ (⟨"a", 0⟩ : EventKey) ∈ ([⟨⟨"a", 0⟩, 1, 0, 1, 10⟩] : List PRecord).map PRecord.key
    ∧ ([⟨⟨"a", 0⟩, 1, 0, 1, 10⟩] : List PRecord).length ≤ 2
    ∧ isProcessed
        (loadStore (markAll (emptyStore 2) [⟨⟨"a", 0⟩, 1, 0, 1, 10⟩]).log 2) ⟨"a", 0⟩
      = true :=
  ⟨by decide, by decide,
    (c2_crash_recovery 1 [⟨⟨"a", 0⟩, 1, 0, 1, 10⟩, ⟨⟨"b", 0⟩, 2, 0, 2, 10⟩]
      ⟨"a", 0⟩ ⟨"c", 0⟩ ⟨"b", 0⟩ (by decide) (by decide)).1,
    (c2_crash_recovery 1 [⟨⟨"a", 0⟩, 1, 0, 1, 10⟩, ⟨⟨"b", 0⟩, 2, 0, 2, 10⟩]
      ⟨"a", 0⟩ ⟨"c", 0⟩ ⟨"b", 0⟩ (by decide) (by decide)).2.1,
    by decide, by decide, by decide,
    (c2_crash_recovery 2 [⟨⟨"a", 0⟩, 1, 0, 1, 10⟩]
      ⟨"a", 0⟩ ⟨"b", 0⟩ ⟨"a", 0⟩ (by decide) (by decide)).2.2 (by decide)⟩

/-- Claim C3: inserting `cacheMaxEntries + k` distinct keys (k > 0) leaves
exactly `cacheMaxEntries` entries, namely the most recently inserted ones
(the suffix of the insertion sequence — eviction is oldest-first), and the
capacity bound holds after every insert sequence. -/
theorem c3_bounded_store (max k : Nat) (L L2 : List PRecord)
    (hk : 0 < k) (hlen : L.length = max + k)
    (_hnd : (L.map PRecord.key).Nodup) :
    (markAll (emptyStore max) L).entries.length = max
    ∧ (markAll (emptyStore max) L).entries = L.drop k
    ∧ (markAll (emptyStore max) L2).entries.length ≤ max := by
  refine ⟨?_, ?_, markAll_length_le max L2⟩
  · rw [markAll_entries_drop, List.length_drop]
    omega
  · rw [markAll_entries_drop]
    congr 1
    omega

/-- Witness for C3: capacity 2, three distinct keys; the two newest remain. -/
theorem c3_bounded_store_witness :
    (0 : Nat) < 1
    ∧ ([⟨⟨"a", 0⟩, 1, 0, 1, 10⟩, ⟨⟨"b", 0⟩, 2, 0, 2, 10⟩, ⟨⟨"c", 0⟩, 3, 0, 3, 10⟩] :
        List PRecord).length = 2 + 1
    ∧ (([⟨⟨"a", 0⟩, 1, 0, 1, 10⟩, ⟨⟨"b", 0⟩, 2, 0, 2, 10⟩, ⟨⟨"c", 0⟩, 3, 0, 3, 10⟩] :
        List PRecord).map PRecord.key).Nodup
    ∧ ((markAll (emptyStore 2)
          [⟨⟨"a", 0⟩, 1, 0, 1, 10⟩, ⟨⟨"b", 0⟩, 2, 0, 2, 10⟩, ⟨⟨"c", 0⟩, 3, 0, 3, 10⟩]).entries.length = 2
      ∧ (markAll (emptyStore 2)
          [⟨⟨"a", 0⟩, 1, 0, 1, 10⟩, ⟨⟨"b", 0⟩, 2, 0, 2, 10⟩, ⟨⟨"c", 0⟩, 3, 0, 3, 10⟩]).entries
        = ([⟨⟨"a", 0⟩, 1, 0, 1, 10⟩, ⟨⟨"b", 0⟩, 2, 0, 2, 10⟩, ⟨⟨"c", 0⟩, 3, 0, 3, 10⟩] :
            List PRecord).drop 1
      ∧ (markAll (emptyStore 2)
          [⟨⟨"a", 0⟩, 1, 0, 1, 10⟩, ⟨⟨"b", 0⟩, 2, 0, 2, 10⟩, ⟨⟨"c", 0⟩, 3, 0, 3, 10⟩]).entries.length ≤ 2) :=
  ⟨by decide, by decide, by decide,
    c3_bounded_store 2 1
      [⟨⟨"a", 0⟩, 1, 0, 1, 10⟩, ⟨⟨"b", 0⟩, 2, 0, 2, 10⟩, ⟨⟨"c", 0⟩, 3, 0, 3, 10⟩]
      [⟨⟨"a", 0⟩, 1, 0, 1, 10⟩, ⟨⟨"b", 0⟩, 2, 0, 2, 10⟩, ⟨⟨"c", 0⟩, 3, 0, 3, 10⟩]
      (by decide) (by decide) (by decide)⟩

/-- Claim C1: processing a fresh event twice (the second delivery being a
redelivery of the same key) increments `totalProcessed` by exactly 1 in
total, leaves exactly one store record for the event's key, leaves the
state of the first processing completely unchanged on redelivery, and —
generally — any event whose key is already recorded is never acted upon
again (the processor returns its state untouched, with no mint). -/
theorem c1_idempotent_processing (s : RelayState) (e : ChainEvent)
    (o o2 o3 : List MintOutcome) (budget t : Nat) (s3 : RelayState) (e3 : ChainEvent)
    (hmax : 0 < s.store.maxEntries)
    (hnew : isProcessed s.store (eventKey e) = false)
    (hmint : attemptMint o budget = some t)
    (hrec : isProcessed s3.store (eventKey e3) = true) :
    (processEvent budget (processEvent budget s e o) e o2).metrics.totalProcessed
      = s.metrics.totalProcessed + 1
    ∧ ((processEvent budget (processEvent budget s e o) e o2).store.entries.filter
        (fun r => decide (r.key = eventKey e))).length = 1
    ∧ processEvent budget (processEvent budget s e o) e o2 = processEvent budget s e o
    ∧ processEvent budget s3 e3 o3 = s3 := by
  have hp1 : isProcessed (processEvent budget s e o).store (eventKey e) = true := by
    simp only [processEvent, hnew, hmint]
    simp only [Bool.false_eq_true, if_false]
    exact isProcessed_markProcessed_self s.store (mkRecord e t) true hmax
  have hskip : processEvent budget (processEvent budget s e o) e o2
      = processEvent budget s e o :=
    processEvent_skip budget _ e o2 hp1
  have hxs : ∀ x ∈ s.store.entries, decide (x.key = eventKey e) = false := by
    have h : ∀ x ∈ s.store.entries, ¬ x.key = eventKey e := by
      simpa [isProcessed, List.any_eq_false] using hnew
    intro x hx
    simp [h x hx]
  refine ⟨?_, ?_, hskip, processEvent_skip budget s3 e3 o3 hrec⟩
  · rw [hskip]
    simp [processEvent, hnew, hmint]
  · rw [hskip]
    have hflt := filter_insertEvict s.store.maxEntries hmax s.store.entries
      (mkRecord e t) (fun r => decide (r.key = eventKey e)) (by simp [mkRecord]) hxs
    simp only [processEvent, hnew, hmint, Bool.false_eq_true, if_false,
      markProcessed_true_fst]
    simp [hflt]

/-- The orchestrator's initial state for the concrete witnesses: empty
store of capacity 4, zeroed metrics. -/
def demoState : RelayState := ⟨emptyStore 4, ⟨0, 0, 0, 0, none⟩, [], []⟩

/-- The end-to-end scenario event of the specification:
tx "0xabc", logIndex 0, player "0x1", amount 10. -/
def demoEvent : ChainEvent := ⟨"0xabc", 0, "0x1", 10, 5⟩

/-- Witness for C1 at the specification's end-to-end scenario event. -/
theorem c1_idempotent_processing_witness :
    (0 < demoState.store.maxEntries)
    ∧ isProcessed demoState.store (eventKey demoEvent) = false
    ∧ attemptMint [MintOutcome.success 7] 3 = some 7
    ∧ isProcessed (processEvent 3 demoState demoEvent
        [MintOutcome.success 7]).store (eventKey demoEvent) = true
    ∧ ((processEvent 3 (processEvent 3 demoState demoEvent [MintOutcome.success 7])
          demoEvent []).metrics.totalProcessed
        = demoState.metrics.totalProcessed + 1
      ∧ ((processEvent 3 (processEvent 3 demoState demoEvent [MintOutcome.success 7])
          demoEvent []).store.entries.filter
          (fun r => decide (r.key = eventKey demoEvent))).length = 1
      ∧ processEvent 3 (processEvent 3 demoState demoEvent [MintOutcome.success 7])
          demoEvent []
        = processEvent 3 demoState demoEvent [MintOutcome.success 7]
      ∧ processEvent 3 (processEvent 3 demoState demoEvent [MintOutcome.success 7])
          demoEvent []
        = processEvent 3 demoState demoEvent [MintOutcome.success 7]) :=
  ⟨by decide, by decide, by decide, by decide,
    c1_idempotent_processing demoState demoEvent [MintOutcome.success 7] [] []
      3 7 (processEvent 3 demoState demoEvent [MintOutcome.success 7]) demoEvent
      (by decide) (by decide) (by decide) (by decide)⟩

/-- Claim C4: an event whose minting fails transiently until the retry
budget is exhausted is logged as failed, increments `totalErrors` by
exactly 1 (and `totalProcessed` by 0, with no mint recorded), is still
marked processed in the store, and a redelivery of the same event leaves
the state untouched — the loop advances past the poison event. -/
theorem c4_poison_event_skip (s : RelayState) (e : ChainEvent)
    (o o2 : List MintOutcome) (budget : Nat)
    (hmax : 0 < s.store.maxEntries)
    (hnew : isProcessed s.store (eventKey e) = false)
    (hfail : attemptMint o budget = none) :
    (processEvent budget s e o).metrics.totalErrors = s.metrics.totalErrors + 1
    ∧ isProcessed (processEvent budget s e o).store (eventKey e) = true
    ∧ (processEvent budget s e o).logs
        = s.logs ++ [(Level.error, "event processing failed")]
    ∧ (processEvent budget s e o).metrics.totalProcessed = s.metrics.totalProcessed
    ∧ (processEvent budget s e o).minted = s.minted
    ∧ processEvent budget (processEvent budget s e o) e o2
        = processEvent budget s e o := by
  have hp1 : isProcessed (processEvent budget s e o).store (eventKey e) = true := by
    simp only [processEvent, hnew, hfail]
    simp only [Bool.false_eq_true, if_false]
    exact isProcessed_markProcessed_self s.store (mkRecord e 0) true hmax
  refine ⟨?_, hp1, ?_, ?_, ?_, processEvent_skip budget _ e o2 hp1⟩ <;>
    simp [processEvent, hnew, hfail]

/-- Witness for C4: three transient failures against a budget of 3. -/
theorem c4_poison_event_skip_witness :
    (0 < demoState.store.maxEntries)
    ∧ isProcessed demoState.store (eventKey demoEvent) = false
    ∧ attemptMint [MintOutcome.transientFail, MintOutcome.transientFail,
        MintOutcome.transientFail] 3 = none
    ∧ ((processEvent 3 demoState demoEvent [MintOutcome.transientFail,
          MintOutcome.transientFail, MintOutcome.transientFail]).metrics.totalErrors
        = demoState.metrics.totalErrors + 1
      ∧ isProcessed (processEvent 3 demoState demoEvent [MintOutcome.transientFail,
          MintOutcome.transientFail, MintOutcome.transientFail]).store
          (eventKey demoEvent) = true
      ∧ (processEvent 3 demoState demoEvent [MintOutcome.transientFail,
          MintOutcome.transientFail, MintOutcome.transientFail]).logs
        = demoState.logs ++ [(Level.error, "event processing failed")]
      ∧ (processEvent 3 demoState demoEvent [MintOutcome.transientFail,
          MintOutcome.transientFail, MintOutcome.transientFail]).metrics.totalProcessed
        = demoState.metrics.totalProcessed
      ∧ (processEvent 3 demoState demoEvent [MintOutcome.transientFail,
          MintOutcome.transientFail, MintOutcome.transientFail]).minted
        = demoState.minted
      ∧ processEvent 3 (processEvent 3 demoState demoEvent [MintOutcome.transientFail,
          MintOutcome.transientFail, MintOutcome.transientFail]) demoEvent []
        = processEvent 3 demoState demoEvent [MintOutcome.transientFail,
          MintOutcome.transientFail, MintOutcome.transientFail]) :=
  ⟨by decide, by decide, by decide,
    c4_poison_event_skip demoState demoEvent
      [MintOutcome.transientFail, MintOutcome.transientFail, MintOutcome.transientFail]
      [] 3 (by decide) (by decide) (by decide)⟩

/-- Claim C10: when the on-disk append fails, the in-memory index still
gains the key (so `isProcessed` is true and the event is not reprocessed
this run), the failure is surfaced as a `StoreIOError` value (the call
returns instead of crashing), the disk log is left as it was, the failure
is logged, and the next successful write re-persists the retained state —
including the record whose append had failed. -/
theorem c10_store_append_failure (s : Store) (r r2 : PRecord)
    (hcap : s.entries.length + 2 ≤ s.maxEntries) :
    isProcessed (markProcessed s r false).1 r.key = true
    ∧ (markProcessed s r false).2 = some StoreIOError.appendFailed
    ∧ (markProcessed s r false).1.log = s.log
    ∧ (markProcessed s r false).1.ioLog = s.ioLog ++ [storeAppendFailedMsg]
    ∧ (markProcessed (markProcessed s r false).1 r2 true).1.log
        = (markProcessed (markProcessed s r false).1 r2 true).1.entries
    ∧ r ∈ (markProcessed (markProcessed s r false).1 r2 true).1.log := by
  have hmax : 0 < s.maxEntries := by omega
  have h1 : insertEvict s.maxEntries s.entries r = s.entries ++ [r] :=
    insertEvict_of_le _ _ _ (by omega)
  refine ⟨isProcessed_markProcessed_self s r false hmax, rfl, rfl, rfl, rfl, ?_⟩
  simp only [markProcessed_false_fst, markProcessed_true_fst, h1]
  rw [insertEvict_of_le _ _ _ (by simp; omega)]
  simp

/-- Witness for C10 on a concrete store of capacity 4. -/
theorem c10_store_append_failure_witness :
    ((emptyStore 4).entries.length + 2 ≤ (emptyStore 4).maxEntries)
    ∧ (isProcessed (markProcessed (emptyStore 4) ⟨⟨"a", 0⟩, 1, 0, 1, 10⟩ false).1
          ⟨"a", 0⟩ = true
      ∧ (markProcessed (emptyStore 4) ⟨⟨"a", 0⟩, 1, 0, 1, 10⟩ false).2
          = some StoreIOError.appendFailed
      ∧ (markProcessed (emptyStore 4) ⟨⟨"a", 0⟩, 1, 0, 1, 10⟩ false).1.log
          = (emptyStore 4).log
      ∧ (markProcessed (emptyStore 4) ⟨⟨"a", 0⟩, 1, 0, 1, 10⟩ false).1.ioLog
          = (emptyStore 4).ioLog ++ [storeAppendFailedMsg]
      ∧ (markProcessed (markProcessed (emptyStore 4) ⟨⟨"a", 0⟩, 1, 0, 1, 10⟩ false).1
            ⟨⟨"b", 0⟩, 2, 0, 2, 10⟩ true).1.log
          = (markProcessed (markProcessed (emptyStore 4) ⟨⟨"a", 0⟩, 1, 0, 1, 10⟩ false).1
            ⟨⟨"b", 0⟩, 2, 0, 2, 10⟩ true).1.entries
      ∧ (⟨⟨"a", 0⟩, 1, 0, 1, 10⟩ : PRecord)
          ∈ (markProcessed (markProcessed (emptyStore 4) ⟨⟨"a", 0⟩, 1, 0, 1, 10⟩ false).1
            ⟨⟨"b", 0⟩, 2, 0, 2, 10⟩ true).1.log) :=
  ⟨by decide,
    c10_store_append_failure (emptyStore 4) ⟨⟨"a", 0⟩, 1, 0, 1, 10⟩
      ⟨⟨"b", 0⟩, 2, 0, 2, 10⟩ (by decide)⟩

end Relayer
